import Mathlib

/-!
Verification of the request/retry/error-mapping core of the iron_go3
client library (packages `api` and `mq`), as a shallow embedding in Lean.

The network is modelled as an oracle `doFn : Nat → DoResult` giving, for
each 0-based attempt index, what `http.DefaultClient.Do` would produce on
that attempt: either a transport error (flagged when it is `io.EOF`) or an
HTTP response.  Responses carry a numeric identity `rid` so that the
draining/closing of response bodies can be traced.  Side effects (sleeps,
attempts made, bodies closed) are returned as explicit traces.
-/

namespace IronGo3

/-- Settings supplied by the config provider (`config.Settings`). -/
structure Settings where
  scheme : String
  host : String
  port : Nat
  apiVersion : String
  projectId : String
  token : String
  userAgent : String
  deriving Repr, DecidableEq

/-- The addressable part of `api.URL` built by `ActionEndpoint`:
scheme, `host:port`, and path. -/
structure ModelURL where
  scheme : String
  host : String
  path : String
  deriving Repr, DecidableEq

/-- `api.ActionEndpoint`: scheme from settings, host is `host:port`,
path is `/{apiVersion}/projects/{projectId}/{endpoint}`. -/
def ActionEndpoint (cs : Settings) (endpoint : String) : ModelURL :=
  { scheme := cs.scheme
    host := cs.host ++ ":" ++ toString cs.port
    path := "/" ++ cs.apiVersion ++ "/projects/" ++ cs.projectId ++ "/" ++ endpoint }

/-- `api.Action`: joins the prefix and the suffix segments with `"/"`
and delegates to `ActionEndpoint`. -/
def Action (cs : Settings) (pfx : String) (suffix : List String) : ModelURL :=
  ActionEndpoint cs (String.intercalate "/" (pfx :: suffix))

/-- The body of an HTTP response as seen by
`json.NewDecoder(response.Body).Decode(&out)` with `out` a
`map[string]interface{}`:
either the decode fails with some error description, or it succeeds and
the `"msg"` key is present (with its value rendered by `fmt.Sprint`) or
absent. -/
inductive RespBody where
  | undecodable (errDesc : String)
  | object (msg : Option String)
  deriving Repr, DecidableEq

/-- An `*http.Response` as far as the library inspects it: status code,
status line, body, plus a numeric identity used to trace body closing. -/
structure HttpResp where
  rid : Nat
  statusCode : Nat
  status : String
  body : RespBody
  deriving Repr, DecidableEq

/-- The structured error `api.resErr`: a message string plus the response
it was derived from.  `Error()` returns the string. -/
structure ResErr where
  error : String
  response : HttpResp
  deriving Repr, DecidableEq

/-- `api.ResponseAsError`, return value: `nil` for status 200; otherwise
an error string built from the status line and the body: the decode
failure description if the body does not decode, the rendered `msg`
value if the `"msg"` key is present, and `"Unknown API Response"` if the
key is absent. -/
def ResponseAsError (r : HttpResp) : Option ResErr :=
  if r.statusCode = 200 then
    none
  else
    match r.body with
    | .undecodable e => some { error := r.status ++ ": " ++ e, response := r }
    | .object (some m) => some { error := r.status ++ ": " ++ m, response := r }
    | .object none => some { error := r.status ++ ": Unknown API Response", response := r }

/-- The body-closing effect of `api.ResponseAsError`: it returns before
the `defer closeResponse(response)` when the status is 200, and drains
and closes the response on every other path. -/
def responseAsErrorClosed (r : HttpResp) : List Nat :=
  if r.statusCode = 200 then [] else [r.rid]

/-- `mq.ErrQueueNotFound`: compares the error message against the fixed
string `"404 Not Found: Queue not found"`. -/
def ErrQueueNotFound (e : ResErr) : Bool :=
  e.error == "404 Not Found: Queue not found"

/-- Outcome of one `http.DefaultClient.Do` call: a transport error
(`isEOF` marks `io.EOF`) or a response. -/
inductive DoResult where
  | transport (isEOF : Bool) (msg : String)
  | resp (r : HttpResp)
  deriving Repr, DecidableEq

/-- `api.MaxRequestRetries`. -/
def MaxRequestRetries : Nat := 5

/-- Result of `api.URL.Request`, i.e. the pair `(response, err)` it
returns to its caller — plus the runtime panic that occurs when the
retry loop is exhausted with `response == nil` and `ResponseAsError`
dereferences it. -/
inductive RequestResult where
  /-- `(response, nil)`: `ResponseAsError` returned `nil`. -/
  | ok (r : HttpResp)
  /-- `(response, err)`: `ResponseAsError` mapped the final response. -/
  | apiErr (r : HttpResp) (e : ResErr)
  /-- `(nil, err)`: a non-EOF transport error aborted the loop. -/
  | transportErr (msg : String)
  /-- nil-pointer dereference inside `ResponseAsError(nil)`. -/
  | nilPanic
  deriving Repr, DecidableEq

/-- Trace of observable effects of one `Request` call: number of `Do`
attempts, the backoff sleeps as `(attempt index, milliseconds)` pairs in
order, the `rid`s of all responses received, and the `rid`s of all
response bodies drained-and-closed during the call. -/
structure RequestTrace where
  attempts : Nat
  sleeps : List (Nat × Nat)
  received : List Nat
  closed : List Nat
  deriving Repr, DecidableEq

/-- What happens after the retry loop of `api.URL.Request` exits with a
(non-nil) response: `ResponseAsError` classifies it, closing its body
when it is not a 200. -/
def afterLoop (r : HttpResp) : RequestResult × List Nat :=
  match ResponseAsError r with
  | none => (.ok r, responseAsErrorClosed r)
  | some e => (.apiErr r e, responseAsErrorClosed r)

/-- The retry loop of `api.URL.Request`, lines 140–164.  `tries` is the
loop counter; `fuel` is the number of loop iterations still allowed
after the current one (the loop runs while `tries <= MaxRequestRetries`,
so the top-level call uses `fuel = MaxRequestRetries`).  On `io.EOF` the
attempt is retried; on any other transport error the function returns
immediately; on a 503 the loop sleeps `((tries+1)*10)^2` milliseconds
and retries; any other response breaks out of the loop and is classified
by `ResponseAsError`.  When the loop exhausts, the `response`/`err`
variables keep the values of the final `Do` call. -/
def requestLoop (doFn : Nat → DoResult) : Nat → Nat → RequestResult × RequestTrace
  | tries, fuel =>
    match doFn tries with
    | .transport true _ =>
      match fuel with
      | 0 =>
        -- loop exhausted with `response == nil`: `ResponseAsError(nil)` panics
        (.nilPanic, ⟨1, [], [], []⟩)
      | fuel' + 1 =>
        let (res, t) := requestLoop doFn (tries + 1) fuel'
        (res, ⟨t.attempts + 1, t.sleeps, t.received, t.closed⟩)
    | .transport false msg =>
      (.transportErr msg, ⟨1, [], [], []⟩)
    | .resp r =>
      if r.statusCode = 503 then
        let delay := (tries + 1) * 10
        let slp := delay * delay
        match fuel with
        | 0 =>
          -- loop exhausted: classify the final (503) response
          let (res, closedHere) := afterLoop r
          (res, ⟨1, [(tries, slp)], [r.rid], closedHere⟩)
        | fuel' + 1 =>
          let (res, t) := requestLoop doFn (tries + 1) fuel'
          (res, ⟨t.attempts + 1, (tries, slp) :: t.sleeps, r.rid :: t.received, t.closed⟩)
      else
        let (res, closedHere) := afterLoop r
        (res, ⟨1, [], [r.rid], closedHere⟩)

/-- `api.URL.Request` (the dispatch-and-retry phase, given the request
was built successfully): run the retry loop from `tries = 0` with
`MaxRequestRetries` further iterations allowed. -/
def Request (doFn : Nat → DoResult) : RequestResult × RequestTrace :=
  requestLoop doFn 0 MaxRequestRetries

/-- The `in` argument of `api.URL.Req` as it behaves under
`json.Marshal`: absent (`nil` in Go), a value that serializes to some
JSON text, or a value whose serialization fails with some error. -/
inductive Payload where
  | absent
  | value (json : String)
  | unserializable (err : String)
  deriving Repr, DecidableEq

/-- `json.Marshal` applied to the `in` value of `Req` after the nil
check: a `nil` payload was replaced by `&map[string]string{}`, which
serializes to `"{}"`. -/
def marshalPayload : Payload → Except String String
  | .absent => .ok "{}"
  | .value j => .ok j
  | .unserializable e => .error e

/-- Result of `api.URL.Req` as seen by its caller, together with the
runtime panic inherited from `Request`. -/
inductive ReqOutcome where
  /-- serialization failed; the error is returned before any request -/
  | marshalErr (e : String)
  /-- `Request` returned a non-EOF transport error -/
  | transportErr (e : String)
  /-- `Request` returned the error mapped from the final response -/
  | apiErr (e : ResErr)
  /-- decoding the 200 response body into `out` failed -/
  | decodeErr (e : String)
  /-- `nil` returned -/
  | success
  /-- nil-pointer dereference inside `Request` -/
  | panicked
  deriving Repr, DecidableEq

/-- Trace of one `Req` call: the serialized body sent (if any), whether
the network was reached, and the response-body trace from `Request`
extended with `Req`'s own `defer closeResponse(response)`. -/
structure ReqTrace where
  sentBody : Option String
  networkAttempts : Nat
  received : List Nat
  closed : List Nat
  deriving Repr, DecidableEq

/-- `api.URL.Req`: substitute an empty object for a `nil` payload,
serialize it (a failure is returned at once, before any network I/O),
perform `Request`, and on success decode the body into `out` when one is
wanted (`decodeOut r = .error e` models a `json.Decode` failure on the
body of `r`) or discard it.  `Req` defers `closeResponse(response)`
whenever `Request` handed it a non-nil response, so the final response
is always drained and closed at `Req` level. -/
def Req (payload : Payload) (doFn : Nat → DoResult) (wantOut : Bool)
    (decodeOut : HttpResp → Except String Unit) : ReqOutcome × ReqTrace :=
  match marshalPayload payload with
  | .error e => (.marshalErr e, ⟨none, 0, [], []⟩)
  | .ok bodyJson =>
    let (res, t) := Request doFn
    match res with
    | .nilPanic =>
      (.panicked, ⟨some bodyJson, t.attempts, t.received, t.closed⟩)
    | .transportErr e =>
      (.transportErr e, ⟨some bodyJson, t.attempts, t.received, t.closed⟩)
    | .apiErr r e =>
      -- `response != nil`, so the deferred close runs (again) on it
      (.apiErr e, ⟨some bodyJson, t.attempts, t.received, t.closed ++ [r.rid]⟩)
    | .ok r =>
      let closedAll := t.closed ++ [r.rid]
      if wantOut then
        match decodeOut r with
        | .error e => (.decodeErr e, ⟨some bodyJson, t.attempts, t.received, closedAll⟩)
        | .ok _ => (.success, ⟨some bodyJson, t.attempts, t.received, closedAll⟩)
      else
        (.success, ⟨some bodyJson, t.attempts, t.received, closedAll⟩)

/-- `mq.Queue`: a settings reference plus a name. -/
structure Queue where
  settings : Settings
  name : String
  deriving Repr, DecidableEq

/-- `mq.Message`, the fields relevant to stamping: the `q` field is the
Go zero value (`none`) until the library sets it. -/
structure Message where
  id : String
  body : String
  reservationId : String
  q : Option Queue
  deriving Repr, DecidableEq

/-- The stamping loop shared by `mq.Queue.LongPoll` and `mq.Queue.PeekN`:
`for i := range out.Messages { out.Messages[i].q = q }`. -/
def stampMessages (q : Queue) (msgs : List Message) : List Message :=
  msgs.map fun m => { m with q := some q }

/-- `mq.Queue.LongPoll`, decode phase onward: given the message list
decoded from a successful reservations response, stamp each message with
the issuing queue before returning the list. -/
def LongPoll (q : Queue) (decoded : List Message) : List Message :=
  stampMessages q decoded

/-- `mq.Queue.PeekN`, decode phase onward: given the message list
decoded from a successful peek response, stamp each message with the
issuing queue before returning the list. -/
def PeekN (q : Queue) (decoded : List Message) : List Message :=
  stampMessages q decoded

/-- Result of a single-message push wrapper, including the runtime panic
of an out-of-range index. -/
inductive PushOne where
  | ok (id : String)
  | err (e : String)
  | panicked
  deriving Repr, DecidableEq

/-- The outcome of the underlying `PushMessages` call: the id list from
a successful multi-push, or its error.  (`PushMessages` forwards
`out.IDs` and the error of `Req` unchanged.) -/
def PushServer := Except String (List String)

/-- `mq.Queue.PushString`: push one body via `PushStrings`/`PushMessages`
and return `ids[0]` — with no check that any id came back, so an empty
id list indexes out of range. -/
def PushString (server : Except String (List String)) : PushOne :=
  match server with
  | .error e => .err e
  | .ok ids =>
    match ids with
    | [] => .panicked
    | i :: _ => .ok i

/-- `mq.Queue.PushMessage`: push one message via `PushMessages`, fail
with an explicit error when fewer than one id came back, else return the
first id. -/
def PushMessage (server : Except String (List String)) : PushOne :=
  match server with
  | .error e => .err e
  | .ok ids =>
    if ids.length < 1 then .err "didn't receive message ID for pushing message"
    else
      match ids with
      | [] => .panicked
      | i :: _ => .ok i

/-! Concrete responses and attempt scripts used by the scenario theorems. -/

/-- A 503 response (with a decodable `{"msg": "Service Unavailable"}`
body) delivered as attempt `i`. -/
def resp503 (i : Nat) : HttpResp :=
  { rid := i, statusCode := 503, status := "503 Service Unavailable",
    body := .object (some "Service Unavailable") }

/-- A 200 response delivered as attempt `i`. -/
def resp200 (i : Nat) : HttpResp :=
  { rid := i, statusCode := 200, status := "200 OK", body := .object none }

/-- Attempt script: two 503s, then a 200. -/
def script503x2then200 : Nat → DoResult := fun i =>
  if i < 2 then .resp (resp503 i) else .resp (resp200 i)

/-- Attempt script: every attempt gets a 503. -/
def script503always : Nat → DoResult := fun i => .resp (resp503 i)

/-- Attempt script: one 503, then a 200. -/
def script503then200 : Nat → DoResult := fun i =>
  if i = 0 then .resp (resp503 0) else .resp (resp200 1)

/-- Attempt script: every attempt fails with `io.EOF`. -/
def scriptEOFalways : Nat → DoResult := fun _ => .transport true "EOF"

/-- A 404 whose body decodes with an empty `msg` value. -/
def respEmptyMsg : HttpResp :=
  { rid := 0, statusCode := 404, status := "404 Not Found", body := .object (some "") }

/-- A 404 whose body is `{"msg":"Queue not found"}`. -/
def respQueueNotFound : HttpResp :=
  { rid := 0, statusCode := 404, status := "404 Not Found",
    body := .object (some "Queue not found") }

/-- A 400 whose body does not decode as JSON. -/
def resp400undecodable : HttpResp :=
  { rid := 0, statusCode := 400, status := "400 Bad Request",
    body := .undecodable "unexpected EOF" }

/-- A 500 whose body decodes but has no `msg` key. -/
def resp500noMsg : HttpResp :=
  { rid := 0, statusCode := 500, status := "500 Internal Server Error",
    body := .object none }

end IronGo3

namespace IronGo3

/-- **C1.** Given the response sequence [503, 503, 200], `Request` makes
exactly 3 attempts with two intervening backoff sleeps of increasing
duration and returns the 200 response with no error; given six
consecutive 503s, the loop stops at the retry cap (`MaxRequestRetries =
5`, 6 total tries) and `Request` returns the error mapped from the last
503 response, not a transport error. -/
theorem C1_retry_policy :
    (Request script503x2then200).1 = .ok (resp200 2) ∧
    (Request script503x2then200).2.attempts = 3 ∧
    (Request script503x2then200).2.sleeps = [(0, 100), (1, 400)] ∧
    (100 : Nat) < 400 ∧
    MaxRequestRetries = 5 ∧
    (Request script503always).2.attempts = 6 ∧
    (Request script503always).1 = .apiErr (resp503 5)
      { error := "503 Service Unavailable: Service Unavailable", response := resp503 5 } := by
  decide

/-- **C2 (counterexample).** Against a stream of 503 responses, the
first backoff sleep (attempt index 0) lasts 100 ms, not
`(0+1)^2 * 10 = 10` ms as the claim states: the code squares
`(tries+1)*10`, not `(tries+1)`. -/
theorem C2_cex_first_sleep_is_100ms :
    (Request script503always).2.sleeps.head? = some (0, 100) ∧
    ¬ (∀ p ∈ (Request script503always).2.sleeps, p.2 = (p.1 + 1) ^ 2 * 10) := by
  decide

/-- **C2 (amended).** For every attempt index `i` at which the retry
loop of `Request` sees a 503, the recorded backoff sleep lasts exactly
`((i+1)*10)^2 = (i+1)^2 * 100` milliseconds. -/
theorem C2_sleeps_quadratic (doFn : Nat → DoResult) (fuel tries : Nat) :
    ∀ p ∈ (requestLoop doFn tries fuel).2.sleeps, p.2 = (p.1 + 1) ^ 2 * 100 := by
  induction fuel generalizing tries with
  | zero =>
    intro p hp
    rw [requestLoop] at hp
    rcases hdo : doFn tries with ⟨eof, msg⟩ | r <;> rw [hdo] at hp
    · rcases eof <;> simp at hp
    · by_cases h503 : r.statusCode = 503
      · simp only [h503, if_pos rfl] at hp
        simp at hp
        subst hp; simp; ring
      · simp [h503] at hp
  | succ fuel' ih =>
    intro p hp
    rw [requestLoop] at hp
    rcases hdo : doFn tries with ⟨eof, msg⟩ | r <;> rw [hdo] at hp
    · rcases eof
      · simp at hp
      · simp at hp
        exact ih (tries + 1) p hp
    · by_cases h503 : r.statusCode = 503
      · simp only [h503, if_pos rfl] at hp
        simp at hp
        rcases hp with hp | hmem
        · subst hp; simp; ring
        · exact ih (tries + 1) p hmem
      · simp [h503] at hp

/-- Witness for `C2_sleeps_quadratic`: the sleep recorded for attempt
index 0 against a stream of 503s lasts `(0+1)^2 * 100 = 100` ms. -/
theorem C2_sleeps_quadratic_witness :
    ((0, 100) : Nat × Nat).2 = (((0, 100) : Nat × Nat).1 + 1) ^ 2 * 100 :=
  C2_sleeps_quadratic script503always MaxRequestRetries 0 (0, 100) (by decide)

/-- **C3 (counterexample).** A 404 whose body decodes with the `msg`
key present but empty is mapped to the error `"404 Not Found: "` — the
status line with an empty message appended — and not to the generic
`"Unknown API Response"` error the claim requires for an empty `msg`:
the code checks key presence, not non-emptiness. -/
theorem C3_cex_empty_msg_not_generic :
    ResponseAsError respEmptyMsg =
      some { error := "404 Not Found: ", response := respEmptyMsg } ∧
    "404 Not Found: " ≠ "404 Not Found: Unknown API Response" := by
  decide

/-- **C3 (amended).** `ResponseAsError` returns `nil` for status 200;
otherwise it combines the status line with the decode failure
description when the body does not decode, with the rendered `msg` value
(even an empty one) when the `msg` key is present, and produces the
generic `"Unknown API Response"` error carrying the status line exactly
when decoding succeeds and the `msg` key is absent. -/
theorem C3_ResponseAsError_classification (r : HttpResp) :
    (r.statusCode = 200 → ResponseAsError r = none) ∧
    (r.statusCode ≠ 200 →
      (∀ d, r.body = .undecodable d →
        ResponseAsError r = some { error := r.status ++ ": " ++ d, response := r }) ∧
      (∀ m, r.body = .object (some m) →
        ResponseAsError r = some { error := r.status ++ ": " ++ m, response := r }) ∧
      (r.body = .object none →
        ResponseAsError r =
          some { error := r.status ++ ": Unknown API Response", response := r })) := by
  unfold ResponseAsError
  refine ⟨fun h => by simp [h], fun h => ⟨fun d hd => ?_, fun m hm => ?_, fun hn => ?_⟩⟩ <;>
    simp_all

/-- Witness for `C3_ResponseAsError_classification`, covering all four
branches at concrete responses. -/
theorem C3_ResponseAsError_classification_witness :
    ResponseAsError (resp200 0) = none ∧
    ResponseAsError resp400undecodable =
      some { error := "400 Bad Request: unexpected EOF", response := resp400undecodable } ∧
    ResponseAsError respQueueNotFound =
      some { error := "404 Not Found: Queue not found", response := respQueueNotFound } ∧
    ResponseAsError resp500noMsg =
      some { error := "500 Internal Server Error: Unknown API Response",
             response := resp500noMsg } :=
  ⟨(C3_ResponseAsError_classification (resp200 0)).1 rfl,
   ((C3_ResponseAsError_classification resp400undecodable).2 (by decide)).1
     "unexpected EOF" rfl,
   ((C3_ResponseAsError_classification respQueueNotFound).2 (by decide)).2.1
     "Queue not found" rfl,
   ((C3_ResponseAsError_classification resp500noMsg).2 (by decide)).2.2 rfl⟩

/-- **C4.** A 404 response with status line `"404 Not Found"` and body
`{"msg":"Queue not found"}` maps to an error whose message is exactly
`"404 Not Found: Queue not found"`, and `ErrQueueNotFound` holds exactly
for errors with that message. -/
theorem C4_queue_not_found_mapping :
    ResponseAsError respQueueNotFound =
      some { error := "404 Not Found: Queue not found", response := respQueueNotFound } ∧
    ErrQueueNotFound
      { error := "404 Not Found: Queue not found", response := respQueueNotFound } = true ∧
    ∀ e : ResErr, ErrQueueNotFound e = true ↔ e.error = "404 Not Found: Queue not found" := by
  refine ⟨by decide, by decide, fun e => ?_⟩
  simp [ErrQueueNotFound]

/-- **C5.** `Req` substitutes an empty JSON object for an absent
payload, so the serialized body sent is `"{}"`; and a payload whose
serialization fails makes `Req` return that error at once, with no
network attempt. -/
theorem C5_Req_marshal (doFn : Nat → DoResult) (wantOut : Bool)
    (dec : HttpResp → Except String Unit) :
    ((Req .absent doFn wantOut dec).2.sentBody = some "{}") ∧
    (∀ e, (Req (.unserializable e) doFn wantOut dec).1 = .marshalErr e ∧
          (Req (.unserializable e) doFn wantOut dec).2.networkAttempts = 0) := by
  constructor
  · unfold Req
    rcases hreq : Request doFn with ⟨res, t⟩
    rcases res with r | ⟨r, e⟩ | msg | _
    · rcases wantOut with _ | _
      · rfl
      · dsimp only
        rcases hdec : dec r with e | u <;> rfl
    · rfl
    · rfl
    · rfl
  · intro e
    exact ⟨rfl, rfl⟩

/-- Folding `(· ++ ·)` over strings from an accumulator `a ++ b` pulls
`a` out front. -/
theorem foldl_append_init (l : List String) (a b : String) :
    l.foldl (· ++ ·) (a ++ b) = a ++ l.foldl (· ++ ·) b := by
  induction l generalizing b with
  | nil => rfl
  | cons x t ih => simp only [List.foldl_cons, String.append_assoc, ih]

/-- The accumulator-passing worker of `String.intercalate`, in closed
form. -/
theorem intercalate_go_spec (sep : String) (l : List String) (acc : String) :
    String.intercalate.go acc sep l = acc ++ String.join (l.map fun x => sep ++ x) := by
  induction l generalizing acc with
  | nil => simp [String.intercalate.go, String.join]
  | cons b t ih =>
    rw [String.intercalate.go, ih]
    simp only [String.join, List.map_cons, List.foldl_cons]
    rw [show ("" ++ (sep ++ b)) = sep ++ b by simp]
    rw [show sep ++ b = (sep ++ b) ++ "" by simp, foldl_append_init]
    simp [String.append_assoc]

/-- `String.intercalate` on a non-empty list: the head followed by each
further element prefixed with the separator. -/
theorem intercalate_cons (sep : String) (a : String) (l : List String) :
    String.intercalate sep (a :: l) = a ++ String.join (l.map fun x => sep ++ x) := by
  rw [String.intercalate, intercalate_go_spec]

/-- **C6.** On the fully successful call whose attempts see [503, 200],
both responses are received but only the final 200 response's body is
ever drained and closed: the 503 response received inside the retry loop
is left unclosed (the loop `continue`s without touching it), violating
the drain-and-close-on-every-exit-path requirement. -/
theorem C6_retry_loop_leaks_503_body :
    (Req .absent script503then200 false fun _ => .ok ()).1 = .success ∧
    (Req .absent script503then200 false fun _ => .ok ()).2.received = [0, 1] ∧
    (Req .absent script503then200 false fun _ => .ok ()).2.closed = [1] ∧
    0 ∉ (Req .absent script503then200 false fun _ => .ok ()).2.closed := by
  decide

/-- **C7.** `Action` builds an endpoint whose scheme and `host:port`
come from the settings and whose path is exactly
`/{apiVersion}/projects/{projectId}/{prefix}` followed by `/{segment}`
for each segment in order. -/
theorem C7_Action_endpoint (cs : Settings) (pfx : String) (suffix : List String) :
    (Action cs pfx suffix).scheme = cs.scheme ∧
    (Action cs pfx suffix).host = cs.host ++ ":" ++ toString cs.port ∧
    (Action cs pfx suffix).path =
      "/" ++ cs.apiVersion ++ "/projects/" ++ cs.projectId ++ "/" ++ pfx ++
        String.join (suffix.map fun s => "/" ++ s) := by
  refine ⟨rfl, rfl, ?_⟩
  show "/" ++ cs.apiVersion ++ "/projects/" ++ cs.projectId ++ "/" ++
      String.intercalate "/" (pfx :: suffix) = _
  rw [intercalate_cons]
  simp [String.append_assoc]

/-- **C8 (counterexample).** When the server's successful reply to a
single-message push carries zero ids, `PushString` neither returns an id
nor an error: it indexes `ids[0]` on the empty list and panics. -/
theorem C8_cex_PushString_zero_ids_panics :
    PushString (.ok []) = .panicked ∧
    PushString (.ok []) ≠ .err "didn't receive message ID for pushing message" ∧
    PushMessage (.ok []) = .err "didn't receive message ID for pushing message" := by
  refine ⟨rfl, fun h => ?_, rfl⟩
  cases h

/-- **C8 (amended).** `PushMessage` returns the first id of the id list
when the multi-push succeeds with at least one id, and fails with the
explicit error `"didn't receive message ID for pushing message"` when
the multi-push succeeds with zero ids; `PushString` also returns the
first id on a non-empty id list, but on zero ids it panics (out-of-range
index) instead of returning an error.  Both propagate a failing
multi-push's error unchanged. -/
theorem C8_push_wrappers :
    (∀ e, PushMessage (.error e) = .err e ∧ PushString (.error e) = .err e) ∧
    PushMessage (.ok []) = .err "didn't receive message ID for pushing message" ∧
    PushString (.ok []) = .panicked ∧
    (∀ i rest, PushMessage (.ok (i :: rest)) = .ok i ∧
               PushString (.ok (i :: rest)) = .ok i) := by
  exact ⟨fun e => ⟨rfl, rfl⟩, rfl, rfl, fun i rest => ⟨by simp [PushMessage], rfl⟩⟩

/-- **C9.** Every message in the list returned by a successful
`LongPoll` (hence `Reserve`, `ReserveN`, `Pop`, `PopN`, `Get`, `GetN`)
or `PeekN` (hence `Peek`) call has its back-reference field `q` set to
the issuing queue handle. -/
theorem C9_messages_stamped (q : Queue) (decoded : List Message) :
    (∀ m ∈ LongPoll q decoded, m.q = some q) ∧
    (∀ m ∈ PeekN q decoded, m.q = some q) := by
  constructor <;> intro m hm <;>
    · rcases List.mem_map.mp hm with ⟨m0, _, rfl⟩
      rfl

/-- Witness for `C9_messages_stamped`: a concrete reserved message comes
back stamped with the issuing queue. -/
theorem C9_messages_stamped_witness :
    ({ id := "6229...", body := "Hello, World!", reservationId := "def",
       q := some { settings := { scheme := "https", host := "mq-aws-us-east-1.iron.io",
                                 port := 443, apiVersion := "3", projectId := "p1",
                                 token := "t", userAgent := "iron_go3" },
                   name := "test_queue" } } : Message).q =
      some { settings := { scheme := "https", host := "mq-aws-us-east-1.iron.io",
                           port := 443, apiVersion := "3", projectId := "p1",
                           token := "t", userAgent := "iron_go3" },
             name := "test_queue" } :=
  (C9_messages_stamped
      { settings := { scheme := "https", host := "mq-aws-us-east-1.iron.io",
                      port := 443, apiVersion := "3", projectId := "p1",
                      token := "t", userAgent := "iron_go3" },
        name := "test_queue" }
      [{ id := "6229...", body := "Hello, World!", reservationId := "def", q := none }]).1
    _ (by decide)

/-- **C10.** When all six attempts fail with the retryable `io.EOF`,
the exhausted loop leaves `response == nil`, and the call into
`ResponseAsError(response)` dereferences it: `Request` (and `Req` above
it) panics instead of returning an error to the caller. -/
theorem C10_eof_exhaustion_derefs_nil :
    Request scriptEOFalways =
      (.nilPanic, { attempts := 6, sleeps := [], received := [], closed := [] }) ∧
    (Req .absent scriptEOFalways true fun _ => .ok ()).1 = .panicked := by
  decide

end IronGo3
